import Mathlib

/-
Verification of the WHO growth z-score service (dntrply/growth-api).

The repository contains two FastAPI entry points, `compute_z` in
src/api/zscore.py and `compute_z` in src/main.py, both implementing the
same per-request pipeline:

  1. normalize: sex := request.sex.upper(), ind := request.indicator.lower()
  2. table := tables.get((sex, ind)); missing -> 400 "Unknown sex or indicator"
  3. age branch (ind in {"length","weight"}): require years and months,
     total_months := years*12 + months, require the "Month" column (else 500),
     coerce the key column with pd.to_numeric(errors="coerce") writing it back
     into the shared table, select the rows whose key equals total_months,
     require the measurement (length for "length", weight for "weight");
     wfl branch: require both length and weight, coerce the first column,
     select rows whose key equals the supplied length.
  4. empty selection -> 400 "No data for given age or length"
  5. L, M, S from the first matching row;
     z := ((meas / M) ** L - 1) / (L * S)   (raises ZeroDivisionError when
     M == 0 or L * S == 0; FastAPI surfaces the uncaught exception as a 500);
     response := {"z_score": round(z, 1), "classification": classify(ind, z)}.

The embedding below follows that pipeline value for value.  Numbers are
modelled as rationals; Python's float `**` operator is modelled as an
explicit function parameter `powf : Q -> Q -> Q` so that every statement
is quantified over the actual power function.  The six reference CSV
files are not part of src/, so table contents are universally quantified
(or, where a claim depends on them, modelled from the spec's data model).
-/

namespace GrowthApi

/-- A cell of the key column of a loaded pandas table.  `num q` is a cell
pandas parsed as a number, `raw q` a textual cell whose content denotes the
number `q` (pandas string cells compare unequal to numbers until coerced),
`bad s` a textual cell that does not denote a number, and `nan` a missing
value.  `pd.to_numeric(errors="coerce")` maps `raw q` to `num q` and `bad`
to `nan`. -/
inductive Cell where
  | num (q : ℚ)
  | raw (q : ℚ)
  | bad (s : String)
  | nan
deriving DecidableEq

/-- Embedding of `pd.to_numeric(_, errors="coerce")` on one key cell. -/
def Cell.toNumeric : Cell → Cell
  | .num q => .num q
  | .raw q => .num q
  | .bad _ => .nan
  | .nan => .nan

/-- Embedding of the pandas elementwise comparison `df[key] == k` on one
cell: a numeric cell matches exactly when its value equals `k`; string
cells and NaN never compare equal to a number. -/
def cellMatches (c : Cell) (k : ℚ) : Bool :=
  match c with
  | .num q => q == k
  | _ => false

/-- One row of a reference table: the key cell (the "Month" column for the
age-indexed tables, the first column for the weight-for-length tables) and
the L, M, S parameters (the spec's data model gives L, M, S as floats). -/
structure Row where
  key : Cell
  L : ℚ
  M : ℚ
  S : ℚ
deriving DecidableEq

/-- A loaded reference table: whether it has the "Month" column required by
the age-indexed branch, and its rows. -/
structure Table where
  monthCol : Bool
  rows : List Row
deriving DecidableEq

/-- Embedding of `df[keycol] = pd.to_numeric(df[keycol], errors="coerce")`:
the key column is coerced in place; L, M, S are untouched. -/
def coerceTable (t : Table) : Table :=
  ⟨t.monthCol, t.rows.map (fun r => ⟨r.key.toNumeric, r.L, r.M, r.S⟩)⟩

/-- The in-memory `tables` dictionary, keyed by (sex, indicator). -/
abbrev Store := List ((String × String) × Table)

/-- Embedding of `tables.get((sex, ind))`. -/
def storeGet (st : Store) (k : String × String) : Option Table :=
  (st.find? (fun kv => decide (kv.1 = k))).map (fun kv => kv.2)

/-- Writing a (coerced) table back at key `k`: Python mutates the
DataFrame shared with the dictionary, which at value level replaces the
table stored under `k`. -/
def storeSet (st : Store) (k : String × String) (t : Table) : Store :=
  st.map (fun kv => if kv.1 = k then (kv.1, t) else kv)

/-- The distinguishable error outcomes of one request.  The first six are
the explicit `HTTPException`s of the source; `zeroDivision` is the
uncaught `ZeroDivisionError` raised by `meas / M` or by the division by
`L * S`, which FastAPI surfaces as a 500. -/
inductive Err where
  | unknownSexIndicator
  | missingYearsMonths
  | invalidTableMissingMonth
  | missingMeasurement
  | missingLengthWeight
  | noData
  | zeroDivision
deriving DecidableEq

/-- The success payload `{"z_score": ..., "classification": ...}`. -/
structure ZResult where
  z_score : ℚ
  classification : String
deriving DecidableEq

/-- Outcome of one request: a JSON payload or an error. -/
inductive Resp where
  | ok (r : ZResult)
  | error (e : Err)
deriving DecidableEq

/-- Round half to even on rationals, the tie rule of Python's `round`. -/
def rhe (x : ℚ) : ℤ :=
  let f := ⌊x⌋
  let r := x - f
  if r < 1 / 2 then f
  else if 1 / 2 < r then f + 1
  else if f % 2 = 0 then f else f + 1

/-- Embedding of `round(z, 1)`. -/
def round1 (x : ℚ) : ℚ := (rhe (10 * x) : ℚ) / 10

/-- Embedding of step 5's if/elif classification chains, identical in both
source files.  Any indicator other than "length" and "weight" takes the
final (weight-for-length) chain, exactly as the source's `else` does. -/
def classify (ind : String) (z : ℚ) : String :=
  if ind = "length" then
    if z < -3 then "Severely stunted"
    else if z < -2 then "Moderately stunted"
    else if z ≤ 2 then "Normal"
    else "Tall"
  else if ind = "weight" then
    if z < -3 then "Severe underweight"
    else if z < -2 then "Underweight"
    else if z ≤ 2 then "Normal"
    else "Overweight"
  else
    if z < -3 then "Severe wasting"
    else if z < -2 then "Wasting"
    else if z ≤ 2 then "Normal"
    else "Overweight"

/-- The spec's statement of Cole's LMS formula,
`z = ((measurement / M) ^ L - 1) / (L * S)`, with `powf` standing for the
float power operator. -/
def zLMS (powf : ℚ → ℚ → ℚ) (meas L M S : ℚ) : ℚ :=
  (powf (meas / M) L - 1) / (L * S)

/-- Embedding of steps 4-5 once a row has been matched: `meas / M` raises
ZeroDivisionError when `M = 0`, the division by `L * S` raises when
`L * S = 0`; otherwise the response carries the rounded z and the
classification of the unrounded z. -/
def scoreRow (powf : ℚ → ℚ → ℚ) (ind : String) (meas L M S : ℚ) : Resp :=
  if M = 0 then .error .zeroDivision
  else if L * S = 0 then .error .zeroDivision
  else
    let z := (powf (meas / M) L - 1) / (L * S)
    .ok ⟨round1 z, classify ind z⟩

/-- Embedding of the `row.empty` check followed by the extraction of
L, M, S from the first matching row. -/
def finishRow (powf : ℚ → ℚ → ℚ) (ind : String) (row? : Option Row) (meas : ℚ) : Resp :=
  match row? with
  | none => .error .noData
  | some r => scoreRow powf ind meas r.L r.M r.S

/-- The body of `compute_z` after the two normalization lines, taken
statement by statement from the source (both files agree on it).  The
returned pair is (the table store after the call, the response): the store
component records the in-place write of the coerced key column. -/
def computeZAux (powf : ℚ → ℚ → ℚ) (tables : Store) (sex ind : String)
    (years months : Option ℤ) (length weight : Option ℚ) :
    Store × Resp :=
  match storeGet tables (sex, ind) with
  | none => (tables, .error .unknownSexIndicator)
  | some df =>
    if ind = "length" ∨ ind = "weight" then
      match years, months with
      | some y, some m =>
        if df.monthCol = false then
          (tables, .error .invalidTableMissingMonth)
        else
          let df2 := coerceTable df
          let tables2 := storeSet tables (sex, ind) df2
          let row? := df2.rows.find? (fun r => cellMatches r.key ((y * 12 + m : ℤ) : ℚ))
          match (if ind = "length" then length else weight) with
          | none => (tables2, .error .missingMeasurement)
          | some meas => (tables2, finishRow powf ind row? meas)
      | _, _ => (tables, .error .missingYearsMonths)
    else
      match length, weight with
      | some l, some w =>
        let df2 := coerceTable df
        let tables2 := storeSet tables (sex, ind) df2
        let row? := df2.rows.find? (fun r => cellMatches r.key l)
        (tables2, finishRow powf ind row? w)
      | _, _ => (tables, .error .missingLengthWeight)

/-- Embedding of Python's `str.upper()` (ASCII, character by character). -/
def strUpper (s : String) : String := ⟨s.data.map Char.toUpper⟩

/-- Embedding of Python's `str.lower()` (ASCII, character by character). -/
def strLower (s : String) : String := ⟨s.data.map Char.toLower⟩

/-- The request body accepted by both endpoints. -/
structure ZScoreRequest where
  sex : String
  indicator : String
  years : Option ℤ
  months : Option ℤ
  length : Option ℚ
  weight : Option ℚ

/-- The endpoint: normalize sex and indicator, then run the shared body. -/
def compute_z (powf : ℚ → ℚ → ℚ) (tables : Store) (req : ZScoreRequest) :
    Store × Resp :=
  computeZAux powf tables (strUpper req.sex) (strLower req.indicator)
    req.years req.months req.length req.weight

/-- The `tables` dictionary of src/api/zscore.py (lines 46-53): all six
(sex, indicator) keys.  The CSV contents are not part of src/, so the six
tables are parameters. -/
def apiTables (tML tMW tMWfl tFL tFW tFWfl : Table) : Store :=
  [(("M", "length"), tML), (("M", "weight"), tMW), (("M", "wfl"), tMWfl),
   (("F", "length"), tFL), (("F", "weight"), tFW), (("F", "wfl"), tFWfl)]

/-- The `tables` dictionary of src/main.py (lines 11-17): five keys only,
("F", "length") is absent. -/
def mainTables (tML tMW tMWfl tFW tFWfl : Table) : Store :=
  [(("M", "length"), tML), (("M", "weight"), tMW), (("M", "wfl"), tMWfl),
   (("F", "weight"), tFW), (("F", "wfl"), tFWfl)]

/-- Modelled from the spec: the six WHO reference CSV files are absent
from src/ (only the loading code is present).  The spec's data model
section gives each row's key as "numeric (month count, integer-valued, or
length in cm)", i.e. every key cell of a loaded store is already in
numeric form, so `pd.to_numeric` fixes it. -/
def numericKeyed (st : Store) : Prop :=
  ∀ kv ∈ st, ∀ r ∈ kv.2.rows, Cell.toNumeric r.key = r.key

/-- Key uniqueness of the store, guaranteed by the Python dict literal. -/
def keysNodup (st : Store) : Prop :=
  (st.map (fun kv => kv.1)).Nodup

lemma round1_zero : round1 0 = 0 := by norm_num [round1, rhe]

lemma classify_zero (ind : String) : classify ind 0 = "Normal" := by
  unfold classify
  split_ifs <;> first | rfl | norm_num at *

lemma scoreRow_eq (powf : ℚ → ℚ → ℚ) (ind : String) (meas L M S : ℚ)
    (hM : M ≠ 0) (hLS : L * S ≠ 0) :
    scoreRow powf ind meas L M S =
      .ok ⟨round1 (zLMS powf meas L M S), classify ind (zLMS powf meas L M S)⟩ := by
  unfold scoreRow
  rw [if_neg hM, if_neg hLS]
  rfl

lemma classify_length_eq (w : ℚ) :
    classify "length" w =
      if w < -3 then "Severely stunted"
      else if w < -2 then "Moderately stunted"
      else if w ≤ 2 then "Normal" else "Tall" := rfl

lemma classify_weight_eq (w : ℚ) :
    classify "weight" w =
      if w < -3 then "Severe underweight"
      else if w < -2 then "Underweight"
      else if w ≤ 2 then "Normal" else "Overweight" := rfl

lemma classify_wfl_eq (w : ℚ) :
    classify "wfl" w =
      if w < -3 then "Severe wasting"
      else if w < -2 then "Wasting"
      else if w ≤ 2 then "Normal" else "Overweight" := rfl

/-- C2: the classification chains use strict comparisons at the -3 and -2
lower bounds and an inclusive upper bound at 2 for "Normal"; anything
strictly above 2 takes the top category.  In particular z = -3 is in the
moderate bucket for LengthForAge and z = 2 is "Normal". -/
theorem c2_classification_boundaries (z : ℚ) :
    (z < -3 → classify "length" z = "Severely stunted" ∧
      classify "weight" z = "Severe underweight" ∧ classify "wfl" z = "Severe wasting")
  ∧ (-3 ≤ z → z < -2 → classify "length" z = "Moderately stunted" ∧
      classify "weight" z = "Underweight" ∧ classify "wfl" z = "Wasting")
  ∧ (-2 ≤ z → z ≤ 2 → classify "length" z = "Normal" ∧
      classify "weight" z = "Normal" ∧ classify "wfl" z = "Normal")
  ∧ (2 < z → classify "length" z = "Tall" ∧
      classify "weight" z = "Overweight" ∧ classify "wfl" z = "Overweight")
  ∧ classify "length" (-3) = "Moderately stunted"
  ∧ classify "length" 2 = "Normal" := by
  refine ⟨fun h => ?_, fun h h2 => ?_, fun h h2 => ?_, fun h => ?_,
    by norm_num [classify], by norm_num [classify]⟩
  · rw [classify_length_eq, if_pos h, classify_weight_eq, if_pos h,
      classify_wfl_eq, if_pos h]
    exact ⟨rfl, rfl, rfl⟩
  · rw [classify_length_eq, if_neg (by linarith), if_pos h2,
      classify_weight_eq, if_neg (by linarith), if_pos h2,
      classify_wfl_eq, if_neg (by linarith), if_pos h2]
    exact ⟨rfl, rfl, rfl⟩
  · rw [classify_length_eq, if_neg (by linarith), if_neg (by linarith), if_pos h2,
      classify_weight_eq, if_neg (by linarith), if_neg (by linarith), if_pos h2,
      classify_wfl_eq, if_neg (by linarith), if_neg (by linarith), if_pos h2]
    exact ⟨rfl, rfl, rfl⟩
  · rw [classify_length_eq, if_neg (by linarith), if_neg (by linarith), if_neg (by linarith),
      classify_weight_eq, if_neg (by linarith), if_neg (by linarith), if_neg (by linarith),
      classify_wfl_eq, if_neg (by linarith), if_neg (by linarith), if_neg (by linarith)]
    exact ⟨rfl, rfl, rfl⟩

/-- Witness for C2 at concrete inputs in each bucket. -/
theorem c2_classification_boundaries_witness :
    classify "length" (-4) = "Severely stunted" ∧
    classify "length" (-5/2) = "Moderately stunted" ∧
    classify "weight" 0 = "Normal" ∧
    classify "wfl" 3 = "Overweight" :=
  ⟨((c2_classification_boundaries (-4)).1 (by norm_num)).1,
   ((c2_classification_boundaries (-5/2)).2.1 (by norm_num) (by norm_num)).1,
   ((c2_classification_boundaries 0).2.2.1 (by norm_num) (by norm_num)).2.1,
   ((c2_classification_boundaries 3).2.2.2.1 (by norm_num)).2.2⟩

/-- C3: on success the classification is computed from the unrounded
z-score while the reported z_score is the z-score rounded to one decimal;
concretely, an unrounded z of 2.04 = 51/25 (meas 3.04, L = 1, M = 1, S = 1)
is classified "Tall" although the reported z_score is 2.0, whereas the
rounded value 2.0 would classify as "Normal". -/
theorem c3_classified_unrounded_reported_rounded :
    (∀ (powf : ℚ → ℚ → ℚ) (ind : String) (meas L M S : ℚ), M ≠ 0 → L * S ≠ 0 →
      scoreRow powf ind meas L M S =
        .ok ⟨round1 (zLMS powf meas L M S), classify ind (zLMS powf meas L M S)⟩)
  ∧ zLMS (fun b _ => b) (76/25) 1 1 1 = 51/25
  ∧ scoreRow (fun b _ => b) "length" (76/25) 1 1 1 = .ok ⟨2, "Tall"⟩
  ∧ round1 (51/25) = 2
  ∧ classify "length" (51/25) = "Tall"
  ∧ classify "length" (round1 (51/25)) = "Normal" := by
  refine ⟨fun powf ind meas L M S hM hLS => scoreRow_eq powf ind meas L M S hM hLS,
    by norm_num [zLMS], ?_, by norm_num [round1, rhe], by norm_num [classify],
    by norm_num [round1, rhe, classify]⟩
  norm_num [scoreRow, round1, rhe, classify]

/-- Witness for C3's universally quantified part at a concrete input. -/
theorem c3_classified_unrounded_reported_rounded_witness :
    scoreRow (fun b _ => b) "weight" 3 1 1 1 =
      .ok ⟨round1 (zLMS (fun b _ => b) 3 1 1 1),
           classify "weight" (zLMS (fun b _ => b) 3 1 1 1)⟩ :=
  c3_classified_unrounded_reported_rounded.1 (fun b _ => b) "weight" 3 1 1 1
    (by norm_num) (by norm_num)

/-- C5: scoring the median itself (measurement = M) gives z-score 0.0 and
classification "Normal", for every indicator string.  The hypothesis
`powf 1 L = 1` records the IEEE float identity `1.0 ** L == 1.0` used by
the source's `**` operator. -/
theorem c5_median_scores_zero (powf : ℚ → ℚ → ℚ) (ind : String) (L M S : ℚ)
    (hM : 0 < M) (hL : L ≠ 0) (hS : S ≠ 0) (hpow : powf 1 L = 1) :
    scoreRow powf ind M L M S = .ok ⟨0, "Normal"⟩ := by
  have hM0 : M ≠ 0 := ne_of_gt hM
  have hLS : L * S ≠ 0 := mul_ne_zero hL hS
  rw [scoreRow_eq powf ind M L M S hM0 hLS]
  have hz : zLMS powf M L M S = 0 := by
    unfold zLMS
    rw [div_self hM0, hpow, sub_self, zero_div]
  rw [hz, round1_zero, classify_zero]

/-- Witness for C5 at a concrete row. -/
theorem c5_median_scores_zero_witness :
    scoreRow (fun _ _ => 1) "length" 1 1 1 1 = .ok ⟨0, "Normal"⟩ :=
  c5_median_scores_zero (fun _ _ => 1) "length" 1 1 1
    (by norm_num) (by norm_num) (by norm_num) rfl

/-- C6: a matched row with L = 0 or S = 0 makes the request fail with the
ZeroDivisionError outcome (an uncaught exception, surfaced as a 500) and
never yields a computed z-score result, whatever the power function,
indicator and measurement. -/
theorem c6_degenerate_row_fails (powf : ℚ → ℚ → ℚ) (ind : String)
    (meas L M S : ℚ) (h : L = 0 ∨ S = 0) :
    scoreRow powf ind meas L M S = .error .zeroDivision := by
  unfold scoreRow
  by_cases hM : M = 0
  · rw [if_pos hM]
  · rw [if_neg hM, if_pos (by rcases h with h | h <;> simp [h])]

/-- Witness for C6 at a concrete degenerate row. -/
theorem c6_degenerate_row_fails_witness :
    scoreRow (fun _ _ => 1) "wfl" 5 0 3 (1/10) = .error .zeroDivision :=
  c6_degenerate_row_fails (fun _ _ => 1) "wfl" 5 0 3 (1/10) (Or.inl rfl)

lemma storeGet_mem (st : Store) (k : String × String) (df : Table)
    (h : storeGet st k = some df) : ∃ kv, kv ∈ st ∧ kv.1 = k ∧ kv.2 = df := by
  unfold storeGet at h
  cases hf : st.find? (fun kv => decide (kv.1 = k)) with
  | none => rw [hf] at h; simp at h
  | some kv =>
    rw [hf] at h
    simp only [Option.map_some'] at h
    have hm := List.mem_of_find?_eq_some hf
    have hp := List.find?_some hf
    exact ⟨kv, hm, of_decide_eq_true hp, by injection h⟩

lemma storeSet_not_mem : ∀ (st : Store) (k : String × String) (t : Table),
    (∀ kv ∈ st, kv.1 ≠ k) → storeSet st k t = st
  | [], _, _, _ => rfl
  | kv :: rest, k, t, h => by
    have h1 : kv.1 ≠ k := h kv (List.mem_cons_self kv rest)
    have h2 : ∀ kv' ∈ rest, kv'.1 ≠ k := fun kv' hm => h kv' (List.mem_cons_of_mem kv hm)
    have hrest := storeSet_not_mem rest k t h2
    simp only [storeSet, List.map_cons, if_neg h1] at *
    rw [hrest]

lemma storeSet_get_self : ∀ (st : Store) (k : String × String) (df : Table),
    keysNodup st → storeGet st k = some df → storeSet st k df = st
  | [], _, df, _, h => by simp [storeGet, List.find?] at h
  | kv :: rest, k, df, hnd, h => by
    unfold keysNodup at hnd
    rw [List.map_cons, List.nodup_cons] at hnd
    by_cases hk : kv.1 = k
    · have hdf : kv.2 = df := by
        unfold storeGet at h
        rw [List.find?_cons_of_pos _ (by simpa using hk)] at h
        simp only [Option.map_some'] at h
        injection h
      have hrest : storeSet rest k df = rest := by
        apply storeSet_not_mem
        intro kv' hm hkk
        apply hnd.1
        rw [hk, ← hkk]
        exact List.mem_map_of_mem (fun x => x.1) hm
      have hhead : (kv.1, df) = kv := by rw [← hdf]
      simp only [storeSet, List.map_cons] at hrest ⊢
      rw [if_pos hk, hhead, hrest]
    · have hrest : storeGet rest k = some df := by
        unfold storeGet at h ⊢
        rw [List.find?_cons_of_neg _ (by simpa using hk)] at h
        exact h
      have ih := storeSet_get_self rest k df hnd.2 hrest
      simp only [storeSet, List.map_cons, if_neg hk] at *
      rw [ih]

lemma coerceTable_numeric (df : Table)
    (h : ∀ r ∈ df.rows, Cell.toNumeric r.key = r.key) : coerceTable df = df := by
  unfold coerceTable
  have hrows : df.rows.map (fun r => (⟨r.key.toNumeric, r.L, r.M, r.S⟩ : Row)) = df.rows := by
    have := List.map_congr_left (l := df.rows)
      (f := fun r => (⟨r.key.toNumeric, r.L, r.M, r.S⟩ : Row)) (g := id)
      (fun r hr => by
        show (⟨Cell.toNumeric r.key, r.L, r.M, r.S⟩ : Row) = id r
        rw [h r hr]
        rfl)
    rw [this, List.map_id]
  rw [hrows]

/-- C7: a request leaves the table store unchanged whenever the store's
key cells are all numeric (which is what the spec's data model says of the
loaded WHO tables) and its keys are distinct (a Python dict guarantee):
the per-request write-back of the coerced key column is then the identity
at value level. -/
theorem c7_store_unchanged (powf : ℚ → ℚ → ℚ) (st : Store) (req : ZScoreRequest)
    (hnd : keysNodup st) (hnum : numericKeyed st) :
    (compute_z powf st req).1 = st := by
  unfold compute_z computeZAux
  split
  · rfl
  next df hget =>
    have hco : coerceTable df = df := by
      obtain ⟨kv, hmem, -, hdf⟩ := storeGet_mem _ _ _ hget
      exact coerceTable_numeric df (hdf ▸ hnum kv hmem)
    have hset : storeSet st (strUpper req.sex, strLower req.indicator)
        (coerceTable df) = st := by
      rw [hco]
      exact storeSet_get_self _ _ _ hnd hget
    split
    · split
      · split
        · rfl
        · split
          · exact hset
          · exact hset
      · rfl
    · split
      · exact hset
      · rfl

/-- Witness for C7 on a concrete numeric-keyed store and request. -/
theorem c7_store_unchanged_witness :
    (compute_z (fun _ _ => 1)
      (apiTables ⟨true, [⟨Cell.num 0, 1, 1, 1⟩]⟩ ⟨true, []⟩ ⟨true, []⟩
        ⟨true, []⟩ ⟨true, []⟩ ⟨true, []⟩)
      ⟨"M", "length", some 0, some 0, some 1, none⟩).1 =
    apiTables ⟨true, [⟨Cell.num 0, 1, 1, 1⟩]⟩ ⟨true, []⟩ ⟨true, []⟩
      ⟨true, []⟩ ⟨true, []⟩ ⟨true, []⟩ :=
  c7_store_unchanged (fun _ _ => 1) _ _
    (by simp [keysNodup, apiTables])
    (by intro kv hkv r hr; simp [apiTables] at hkv;
        rcases hkv with h | h | h | h | h | h <;> subst h <;> simp_all [Cell.toNumeric])

/-- C8: src/main.py's `tables` dictionary has no ("F", "length") entry, so
a Female / LengthForAge request fails with the unknown-sex-or-indicator
error whatever the five loaded tables and the rest of the request, whereas
src/api/zscore.py's dictionary answers all six (sex, indicator) keys. -/
theorem c8_main_store_missing_female_length :
    (∀ (powf : ℚ → ℚ → ℚ) (t1 t2 t3 t4 t5 : Table)
       (y m : Option ℤ) (l w : Option ℚ),
      (compute_z powf (mainTables t1 t2 t3 t4 t5) ⟨"F", "length", y, m, l, w⟩).2
        = .error .unknownSexIndicator)
  ∧ (∀ t1 t2 t3 t4 t5 t6 : Table,
      storeGet (apiTables t1 t2 t3 t4 t5 t6) ("M", "length") = some t1
    ∧ storeGet (apiTables t1 t2 t3 t4 t5 t6) ("M", "weight") = some t2
    ∧ storeGet (apiTables t1 t2 t3 t4 t5 t6) ("M", "wfl") = some t3
    ∧ storeGet (apiTables t1 t2 t3 t4 t5 t6) ("F", "length") = some t4
    ∧ storeGet (apiTables t1 t2 t3 t4 t5 t6) ("F", "weight") = some t5
    ∧ storeGet (apiTables t1 t2 t3 t4 t5 t6) ("F", "wfl") = some t6) := by
  constructor
  · intro powf t1 t2 t3 t4 t5 y m l w
    rfl
  · intro t1 t2 t3 t4 t5 t6
    refine ⟨rfl, rfl, rfl, rfl, rfl, rfl⟩

lemma computeZAux_snd_congr (powf : ℚ → ℚ → ℚ) (st1 st2 : Store) (sex ind : String)
    (y m : Option ℤ) (l w : Option ℚ)
    (h : storeGet st1 (sex, ind) = storeGet st2 (sex, ind)) :
    (computeZAux powf st1 sex ind y m l w).2 =
      (computeZAux powf st2 sex ind y m l w).2 := by
  unfold computeZAux
  rw [h]
  cases storeGet st2 (sex, ind) with
  | none => rfl
  | some df =>
    dsimp only
    split
    · split
      · split
        · rfl
        · split <;> rfl
      · rfl
    · split <;> rfl

lemma storeGet_api_main (a b c d e f : Table) (k : String × String)
    (hk : k ≠ ("F", "length")) :
    storeGet (mainTables a b c e f) k = storeGet (apiTables a b c d e f) k := by
  by_cases h1 : (("M", "length") : String × String) = k
  · simp [storeGet, apiTables, mainTables, List.find?_cons, h1]
  · by_cases h2 : (("M", "weight") : String × String) = k
    · simp [storeGet, apiTables, mainTables, List.find?_cons, h1, h2]
    · by_cases h3 : (("M", "wfl") : String × String) = k
      · simp [storeGet, apiTables, mainTables, List.find?_cons, h1, h2, h3]
      · simp [storeGet, apiTables, mainTables, List.find?_cons, h1, h2, h3, Ne.symm hk]

/-- C9 amended: the two entry points run the identical per-request
algorithm, and for every request whose normalized (sex, indicator) pair is
not ("F", "length") they return the same outcome on the same loaded
tables; they differ exactly on Female / LengthForAge requests, where
src/main.py's five-entry dictionary has no table. -/
theorem c9_entry_points_agree_off_female_length (powf : ℚ → ℚ → ℚ)
    (a b c d e f : Table) (req : ZScoreRequest)
    (h : ¬(strUpper req.sex = "F" ∧ strLower req.indicator = "length")) :
    (compute_z powf (mainTables a b c e f) req).2
      = (compute_z powf (apiTables a b c d e f) req).2 := by
  unfold compute_z
  apply computeZAux_snd_congr
  apply storeGet_api_main
  intro hkey
  apply h
  have h1 := congrArg Prod.fst hkey
  have h2 := congrArg Prod.snd hkey
  exact ⟨h1, h2⟩

/-- Witness for C9's amended statement at a concrete request. -/
theorem c9_entry_points_agree_off_female_length_witness :
    (compute_z (fun p _ => p)
        (mainTables ⟨true, []⟩ ⟨true, []⟩ ⟨true, []⟩ ⟨true, []⟩ ⟨true, []⟩)
        ⟨"M", "length", some 1, some 0, some 5, none⟩).2
      = (compute_z (fun p _ => p)
        (apiTables ⟨true, []⟩ ⟨true, []⟩ ⟨true, []⟩ ⟨true, []⟩ ⟨true, []⟩ ⟨true, []⟩)
        ⟨"M", "length", some 1, some 0, some 5, none⟩).2 :=
  c9_entry_points_agree_off_female_length (fun p _ => p)
    ⟨true, []⟩ ⟨true, []⟩ ⟨true, []⟩ ⟨true, []⟩ ⟨true, []⟩ ⟨true, []⟩
    ⟨"M", "length", some 1, some 0, some 5, none⟩ (by decide)

/-- C9 counterexample to the claim as stated: a Female / LengthForAge
request on the same loaded data succeeds on the src/api/zscore.py store
but returns the unknown-sex-or-indicator error on the src/main.py store,
so the two entry points do not produce identical outcomes on every
request. -/
theorem c9_entry_points_differ_counterexample :
    (compute_z (fun p _ => p)
        (mainTables ⟨true, []⟩ ⟨true, []⟩ ⟨true, []⟩ ⟨true, []⟩ ⟨true, []⟩)
        ⟨"F", "length", some 0, some 6, some 1, none⟩).2
      ≠ (compute_z (fun p _ => p)
        (apiTables ⟨true, []⟩ ⟨true, []⟩ ⟨true, []⟩
          ⟨true, [⟨Cell.num 6, 1, 1, 1⟩]⟩ ⟨true, []⟩ ⟨true, []⟩)
        ⟨"F", "length", some 0, some 6, some 1, none⟩).2 := by
  have h1 : (compute_z (fun p _ => p)
      (mainTables ⟨true, []⟩ ⟨true, []⟩ ⟨true, []⟩ ⟨true, []⟩ ⟨true, []⟩)
      ⟨"F", "length", some 0, some 6, some 1, none⟩).2
      = Resp.error Err.unknownSexIndicator := rfl
  have h2 : (compute_z (fun p _ => p)
      (apiTables ⟨true, []⟩ ⟨true, []⟩ ⟨true, []⟩
        ⟨true, [⟨Cell.num 6, 1, 1, 1⟩]⟩ ⟨true, []⟩ ⟨true, []⟩)
      ⟨"F", "length", some 0, some 6, some 1, none⟩).2
      = Resp.ok ⟨0, "Normal"⟩ := by
    have hs : strUpper "F" = "F" := by decide
    have hi : strLower "length" = "length" := by decide
    have hget : storeGet (apiTables ⟨true, []⟩ ⟨true, []⟩ ⟨true, []⟩
        ⟨true, [⟨Cell.num 6, 1, 1, 1⟩]⟩ ⟨true, []⟩ ⟨true, []⟩)
        ("F", "length") = some ⟨true, [⟨Cell.num 6, 1, 1, 1⟩]⟩ := by
      simp [apiTables, storeGet, List.find?]
    simp only [compute_z, hs, hi, computeZAux, hget]
    norm_num [coerceTable, Cell.toNumeric, cellMatches, List.find?, finishRow,
      scoreRow, round1, rhe, classify]
  rw [h1, h2]
  exact fun hh => Resp.noConfusion hh

/-- C10: both endpoints normalize sex with `.upper()` and indicator with
`.lower()` before any use, so two requests differing only in the letter
case of those two fields get identical results (store and response). -/
theorem c10_case_insensitive (powf : ℚ → ℚ → ℚ) (st : Store)
    (r1 r2 : ZScoreRequest)
    (hsex : strUpper r1.sex = strUpper r2.sex)
    (hind : strLower r1.indicator = strLower r2.indicator)
    (hy : r1.years = r2.years) (hm : r1.months = r2.months)
    (hl : r1.length = r2.length) (hw : r1.weight = r2.weight) :
    compute_z powf st r1 = compute_z powf st r2 := by
  unfold compute_z
  rw [hsex, hind, hy, hm, hl, hw]

/-- Witness for C10: "m"/"WFL" versus "M"/"wfl". -/
theorem c10_case_insensitive_witness :
    compute_z (fun _ _ => 1) [] ⟨"m", "WFL", none, none, some 65, some 8⟩
      = compute_z (fun _ _ => 1) [] ⟨"M", "wfl", none, none, some 65, some 8⟩ :=
  c10_case_insensitive (fun _ _ => 1) [] _ _
    (by decide) (by decide) rfl rfl rfl rfl

lemma coerce_find_none (df : Table) (q : ℚ)
    (h : ∀ r ∈ df.rows, cellMatches (Cell.toNumeric r.key) q = false) :
    (coerceTable df).rows.find? (fun row => cellMatches row.key q) = none := by
  rw [List.find?_eq_none]
  intro x hx
  unfold coerceTable at hx
  simp only [List.mem_map] at hx
  obtain ⟨r, hr, rfl⟩ := hx
  simp [h r hr]

/-- C1: every request that reaches the scoring step — a table was found,
the branch's required fields are present, and a row matched — gets the
Cole LMS value `((meas / M) ^ L - 1) / (L * S)` as its z-score, with the
matched row's L, M, S and the supplied measurement; the response is that
value rounded and classified.  Stated for the age-indexed branch and for
the weight-for-length branch. -/
theorem c1_z_is_lms_formula :
    (∀ (powf : ℚ → ℚ → ℚ) (st : Store) (req : ZScoreRequest) (df : Table)
       (y m : ℤ) (meas : ℚ) (r : Row),
      storeGet st (strUpper req.sex, strLower req.indicator) = some df →
      (strLower req.indicator = "length" ∨ strLower req.indicator = "weight") →
      req.years = some y → req.months = some m →
      df.monthCol = true →
      (if strLower req.indicator = "length" then req.length else req.weight)
        = some meas →
      (coerceTable df).rows.find?
          (fun row => cellMatches row.key ((y * 12 + m : ℤ) : ℚ)) = some r →
      r.M ≠ 0 → r.L * r.S ≠ 0 →
      (compute_z powf st req).2 =
        .ok ⟨round1 (zLMS powf meas r.L r.M r.S),
             classify (strLower req.indicator) (zLMS powf meas r.L r.M r.S)⟩)
  ∧ (∀ (powf : ℚ → ℚ → ℚ) (st : Store) (req : ZScoreRequest) (df : Table)
       (l w : ℚ) (r : Row),
      storeGet st (strUpper req.sex, strLower req.indicator) = some df →
      ¬(strLower req.indicator = "length" ∨ strLower req.indicator = "weight") →
      req.length = some l → req.weight = some w →
      (coerceTable df).rows.find? (fun row => cellMatches row.key l) = some r →
      r.M ≠ 0 → r.L * r.S ≠ 0 →
      (compute_z powf st req).2 =
        .ok ⟨round1 (zLMS powf w r.L r.M r.S),
             classify (strLower req.indicator) (zLMS powf w r.L r.M r.S)⟩) := by
  constructor
  · intro powf st req df y m meas r hget hi hy hm hcol hmeas hfind hM hLS
    unfold compute_z computeZAux
    simp only [hget, if_pos hi, hy, hm]
    rw [if_neg (show ¬(df.monthCol = false) by simp [hcol])]
    simp only [hmeas, hfind, finishRow]
    exact scoreRow_eq powf _ meas r.L r.M r.S hM hLS
  · intro powf st req df l w r hget hi hl hw hfind hM hLS
    unfold compute_z computeZAux
    simp only [hget, if_neg hi, hl, hw]
    simp only [hfind, finishRow]
    exact scoreRow_eq powf _ w r.L r.M r.S hM hLS

/-- Witness for C1, both branches, at concrete requests. -/
theorem c1_z_is_lms_formula_witness :
    ((compute_z (fun p _ => p)
        (apiTables ⟨true, [⟨Cell.num 24, 1, 2, 1⟩]⟩ ⟨true, []⟩ ⟨true, []⟩
          ⟨true, []⟩ ⟨true, []⟩ ⟨true, []⟩)
        ⟨"M", "length", some 2, some 0, some 3, none⟩).2 =
      .ok ⟨round1 (zLMS (fun p _ => p) 3 1 2 1),
           classify (strLower "length") (zLMS (fun p _ => p) 3 1 2 1)⟩)
  ∧ ((compute_z (fun p _ => p)
        (apiTables ⟨true, []⟩ ⟨true, []⟩ ⟨false, [⟨Cell.num 65, 1, 7, 1⟩]⟩
          ⟨true, []⟩ ⟨true, []⟩ ⟨true, []⟩)
        ⟨"M", "wfl", none, none, some 65, some 8⟩).2 =
      .ok ⟨round1 (zLMS (fun p _ => p) 8 1 7 1),
           classify (strLower "wfl") (zLMS (fun p _ => p) 8 1 7 1)⟩) := by
  constructor
  · exact c1_z_is_lms_formula.1 (fun p _ => p) _ _ ⟨true, [⟨Cell.num 24, 1, 2, 1⟩]⟩
      2 0 3 ⟨Cell.num 24, 1, 2, 1⟩
      (by simp [apiTables, storeGet, List.find?, show strUpper "M" = "M" from by decide,
          show strLower "length" = "length" from by decide,
          show strLower "wfl" = "wfl" from by decide])
      (by decide) rfl rfl rfl (by decide)
      (by norm_num [coerceTable, Cell.toNumeric, cellMatches, List.find?])
      (by norm_num) (by norm_num)
  · exact c1_z_is_lms_formula.2 (fun p _ => p) _ _ ⟨false, [⟨Cell.num 65, 1, 7, 1⟩]⟩
      65 8 ⟨Cell.num 65, 1, 7, 1⟩
      (by simp [apiTables, storeGet, List.find?, show strUpper "M" = "M" from by decide,
          show strLower "length" = "length" from by decide,
          show strLower "wfl" = "wfl" from by decide])
      (by decide) rfl rfl
      (by norm_num [coerceTable, Cell.toNumeric, cellMatches, List.find?])
      (by norm_num) (by norm_num)

/-- C4: when the lookup key — years*12 + months for the age-indexed
indicators, the supplied length for weight-for-length — matches no
(coerced) key cell of the selected table, the request returns the no-data
error, with no interpolation, nearest match or z-score computation. -/
theorem c4_exact_match_only :
    (∀ (powf : ℚ → ℚ → ℚ) (st : Store) (req : ZScoreRequest) (df : Table)
       (y m : ℤ) (meas : ℚ),
      storeGet st (strUpper req.sex, strLower req.indicator) = some df →
      (strLower req.indicator = "length" ∨ strLower req.indicator = "weight") →
      req.years = some y → req.months = some m →
      df.monthCol = true →
      (if strLower req.indicator = "length" then req.length else req.weight)
        = some meas →
      (∀ r ∈ df.rows,
        cellMatches (Cell.toNumeric r.key) ((y * 12 + m : ℤ) : ℚ) = false) →
      (compute_z powf st req).2 = .error .noData)
  ∧ (∀ (powf : ℚ → ℚ → ℚ) (st : Store) (req : ZScoreRequest) (df : Table)
       (l w : ℚ),
      storeGet st (strUpper req.sex, strLower req.indicator) = some df →
      ¬(strLower req.indicator = "length" ∨ strLower req.indicator = "weight") →
      req.length = some l → req.weight = some w →
      (∀ r ∈ df.rows, cellMatches (Cell.toNumeric r.key) l = false) →
      (compute_z powf st req).2 = .error .noData) := by
  constructor
  · intro powf st req df y m meas hget hi hy hm hcol hmeas hnone
    unfold compute_z computeZAux
    simp only [hget, if_pos hi, hy, hm]
    rw [if_neg (show ¬(df.monthCol = false) by simp [hcol])]
    simp only [hmeas, coerce_find_none df _ hnone, finishRow]
  · intro powf st req df l w hget hi hl hw hnone
    unfold compute_z computeZAux
    simp only [hget, if_neg hi, hl, hw]
    simp only [coerce_find_none df _ hnone, finishRow]

/-- Witness for C4, both branches: age 25 months and length 64.5 are
absent from tables keyed 24 and 65. -/
theorem c4_exact_match_only_witness :
    ((compute_z (fun p _ => p)
        (apiTables ⟨true, [⟨Cell.num 24, 1, 2, 1⟩]⟩ ⟨true, []⟩ ⟨true, []⟩
          ⟨true, []⟩ ⟨true, []⟩ ⟨true, []⟩)
        ⟨"M", "length", some 2, some 1, some 3, none⟩).2 = .error .noData)
  ∧ ((compute_z (fun p _ => p)
        (apiTables ⟨true, []⟩ ⟨true, []⟩ ⟨false, [⟨Cell.num 65, 1, 7, 1⟩]⟩
          ⟨true, []⟩ ⟨true, []⟩ ⟨true, []⟩)
        ⟨"M", "wfl", none, none, some (129/2), some 8⟩).2 = .error .noData) := by
  constructor
  · exact c4_exact_match_only.1 (fun p _ => p) _ _ ⟨true, [⟨Cell.num 24, 1, 2, 1⟩]⟩
      2 1 3
      (by simp [apiTables, storeGet, List.find?, show strUpper "M" = "M" from by decide,
          show strLower "length" = "length" from by decide,
          show strLower "wfl" = "wfl" from by decide])
      (by decide) rfl rfl rfl (by decide)
      (by intro r hr; simp at hr; subst hr;
          norm_num [Cell.toNumeric, cellMatches])
  · exact c4_exact_match_only.2 (fun p _ => p) _ _ ⟨false, [⟨Cell.num 65, 1, 7, 1⟩]⟩
      (129/2) 8
      (by simp [apiTables, storeGet, List.find?, show strUpper "M" = "M" from by decide,
          show strLower "length" = "length" from by decide,
          show strLower "wfl" = "wfl" from by decide])
      (by decide) rfl rfl
      (by intro r hr; simp at hr; subst hr;
          norm_num [Cell.toNumeric, cellMatches])

end GrowthApi
